import Mathlib

/-!
Verification of the LessonPlanner-AI TOC-detection and chapter-extraction
pipeline (src/app.py, src/app1.py) against its natural-language specification.

The Python code is shallowly embedded: the SQLite chapter table becomes a list
of rows passed explicitly through the store operations, PyMuPDF documents
become lists of page texts (for plain-text extraction) and lists of
page/block/line/span structures (for the font-histogram extractor), and the
`re`/`json` library calls are modelled by executable Lean functions with the
same observable behaviour on the inputs the claims are about.
-/

namespace App

/-- ChapterRecord as produced by `json.loads` and consumed by the store:
`chapter_number` and `title` are strings, the page bounds may be absent
(`null` in the JSON). Mirrors the dicts flowing through src/app.py. -/
structure Chapter where
  chapter_number : String
  title : String
  start_page : Option Int
  end_page : Option Int
deriving DecidableEq, Repr

/-- One row of the SQLite `chapters` table (src/app.py lines 20-21).
The schema declares `start_page INTEGER, end_page INTEGER`, both nullable,
so the row holds `Option Int` bounds. -/
structure Row where
  chapter_number : String
  title : String
  start_page : Option Int
  end_page : Option Int
deriving DecidableEq, Repr

/-- `save_chapters_to_db` (src/app.py lines 25-34): deletes every existing row
and inserts one row per chapter whose `start_page` and `end_page` are both
non-`None` (`if None not in (chapter["start_page"], chapter["end_page"])`).
The previous table contents `db` are cleared, hence unused. -/
def save_chapters_to_db (chapters : List Chapter) (db : List Row) : List Row :=
  let _ := db
  chapters.filterMap fun ch =>
    match ch.start_page, ch.end_page with
    | some s, some e => some { chapter_number := ch.chapter_number, title := ch.title,
                               start_page := some s, end_page := some e }
    | _, _ => none

/-- Models Python `int(row[2]) if row[2] else None` (src/app.py lines 43-44):
a SQL `NULL` and the integer `0` are both falsy, so both load back as absent. -/
def pyIntOrNone (v : Option Int) : Option Int :=
  match v with
  | some n => if n = 0 then none else some n
  | none => none

/-- `get_chapters_from_db` (src/app.py lines 36-44): reads every row in table
order and rebuilds the chapter dicts, passing each page bound through the
truthiness conversion `int(row[i]) if row[i] else None`. -/
def get_chapters_from_db (db : List Row) : List Chapter :=
  db.map fun r =>
    { chapter_number := r.chapter_number, title := r.title,
      start_page := pyIntOrNone r.start_page, end_page := pyIntOrNone r.end_page }

/-- `get_first_chapter_start_page` (src/app.py lines 46-48):
`chapters[0]["start_page"] if chapters else 1`. When the store is empty the
result is the constant `1`; otherwise the first record's (possibly absent)
start page. -/
def get_first_chapter_start_page (db : List Row) : Option Int :=
  match get_chapters_from_db db with
  | [] => some 1
  | ch :: _ => ch.start_page

/-- The page-offset arithmetic of `extract_chapter` (src/app.py lines 92-94):
`adjustment = first_chapter_first_page - first_chapter_start_page_doc`,
added to both the stored start page and the stored end page.
Arguments: stored start `s`, stored end `e`, user-declared first-chapter page
`f`, stored anchor `d`. -/
def resolve (s e f d : Int) : Int × Int :=
  let adjustment := f - d
  (s + adjustment, e + adjustment)

/-- Offset resolution as performed at the top of `extract_chapter`
(src/app.py lines 90-94), including the anchor lookup. When the anchor loads
as `None`, Python evaluates `first_chapter_first_page - None` and crashes with
an unhandled `TypeError`; that crash is modelled as `none`. -/
def resolve_pages (db : List Row) (s e f : Int) : Option (Int × Int) :=
  (get_first_chapter_start_page db).map fun d => resolve s e f d

/-- The page-collection loop of `extract_text_from_pdf` (src/app.py lines
53-55): walk the pages with a zero-based counter `i`, keeping each page with
`start_page <= i + 1 <= end_page`. -/
def collectPages (startPage endPage : Int) : Int → List String → List String
  | _, [] => []
  | i, t :: rest =>
    if startPage ≤ i + 1 ∧ i + 1 ≤ endPage then t :: collectPages startPage endPage (i + 1) rest
    else collectPages startPage endPage (i + 1) rest

/-- `extract_text_from_pdf` (src/app.py lines 50-56) over a document given as
its list of per-page plain texts: join the in-range pages with a newline,
returning `""` when no page is in range. -/
def extract_text_from_pdf (pages : List String) (startPage endPage : Int) : String :=
  let text := collectPages startPage endPage 0 pages
  if text.isEmpty then "" else String.intercalate "\n" text

/-- Modelled from the spec: the pages of the document whose 1-indexed position
lies in `[s, e]`, in physical page order (spec section 4.1). Stated with
1-based positions, as the spec words it, for comparison with the
implementation's zero-based loop counter. -/
def pagesInRangeSpec (s e : Int) : Int → List String → List String
  | _, [] => []
  | pos, t :: rest =>
    if s ≤ pos ∧ pos ≤ e then t :: pagesInRangeSpec s e (pos + 1) rest
    else pagesInRangeSpec s e (pos + 1) rest

/-- Python `str.split()` word counting (`len(span["text"].split())`,
src/app.py line 110): the number of maximal nonempty runs of
non-whitespace characters. -/
def countWordsAux : Bool → List Char → Nat
  | _, [] => 0
  | inWord, c :: cs =>
    if c.isWhitespace then countWordsAux false cs
    else (if inWord then 0 else 1) + countWordsAux true cs

/-- Word count of a span text, as `len(text.split())` computes it. -/
def countWords (s : String) : Nat := countWordsAux false s.data

/-- One dict update `font_sizes[size] = font_sizes.get(size, 0) + words`
(src/app.py line 110) on an insertion-ordered association list, the order a
Python dict preserves. -/
def addWords (h : List (Int × Nat)) (size : Int) (w : Nat) : List (Int × Nat) :=
  match h with
  | [] => [(size, w)]
  | (s, c) :: rest => if s = size then (s, c + w) :: rest else (s, c) :: addWords rest size w

/-- Stable insertion of one histogram entry into a list sorted by strictly
descending size. -/
def insertDesc (x : Int × Nat) : List (Int × Nat) → List (Int × Nat)
  | [] => [x]
  | y :: ys => if x.1 > y.1 then x :: y :: ys else y :: insertDesc x ys

/-- `sorted(font_sizes.items(), key=lambda x: -x[0])` (src/app.py line 112):
the histogram entries sorted by descending font size (keys are distinct, so
stability is immaterial). -/
def sortDesc (l : List (Int × Nat)) : List (Int × Nat) := l.foldr insertDesc []

/-- The greedy size-selection loop of `extract_chapter` (src/app.py lines
114-120): for each (size, words) in descending-size order, IF
`total_words + words <= max_words` accept the size and add its words,
ELSE break. Returns the selected sizes and the accumulated total. -/
def selectLoop (maxWords : Nat) : List (Int × Nat) → Nat → List Int × Nat
  | [], total => ([], total)
  | (size, words) :: rest, total =>
    if total + words ≤ maxWords then
      let p := selectLoop maxWords rest (total + words)
      (size :: p.1, p.2)
    else ([], total)

/-- The whole font-size selection stage of `extract_chapter` (src/app.py lines
112-120): sort the histogram by descending size, then run the greedy loop with
`total_words = 0` and the fixed budget `max_words = 2000`. -/
def selectedSizesOf (fontSizes : List (Int × Nat)) : List Int × Nat :=
  selectLoop 2000 (sortDesc fontSizes) 0

/-- JSON values, the shape of what `json.loads` returns for the responses this
pipeline handles: null, booleans, integers, strings, arrays and objects
(object fields kept in textual order). -/
inductive Json where
  | null : Json
  | bool : Bool → Json
  | num : Int → Json
  | str : String → Json
  | arr : List Json → Json
  | obj : List (String × Json) → Json
deriving Repr

/-- Skip JSON insignificant whitespace (space, tab, CR, LF). -/
def skipWs (cs : List Char) : List Char := cs.dropWhile Char.isWhitespace

/-- Consume an expected literal character sequence. -/
def expectLit : List Char → List Char → Option (List Char)
  | [], cs => some cs
  | _ :: _, [] => none
  | p :: ps, c :: cs => if c = p then expectLit ps cs else none

/-- Read the characters of a string literal up to the closing quote (the JSON
subset without escape sequences, which is all this pipeline's payloads use). -/
def takeStringChars : List Char → Option (List Char × List Char)
  | [] => none
  | c :: cs =>
    if c = '"' then some ([], cs)
    else (takeStringChars cs).map fun p => (c :: p.1, p.2)

/-- Decimal digits to a natural number. -/
def digitsToNat (ds : List Char) : Nat :=
  ds.foldl (fun n c => 10 * n + (c.toNat - '0'.toNat)) 0

/-- Parse a JSON integer (optional leading minus sign). -/
def parseNumber (cs : List Char) : Option (Int × List Char) :=
  match cs with
  | '-' :: rest =>
    let ds := rest.takeWhile Char.isDigit
    if ds.isEmpty then none
    else some (-(digitsToNat ds : Int), rest.dropWhile Char.isDigit)
  | _ =>
    let ds := cs.takeWhile Char.isDigit
    if ds.isEmpty then none
    else some ((digitsToNat ds : Int), cs.dropWhile Char.isDigit)

mutual

/-- Recursive-descent JSON value parser modelling `json.loads` on the subset
this pipeline exchanges (no escape sequences, integer numbers); `fuel` bounds
the recursion and is chosen large enough by `jsonLoads`. -/
def parseValue : Nat → List Char → Option (Json × List Char)
  | 0, _ => none
  | fuel + 1, cs =>
    match skipWs cs with
    | [] => none
    | c :: rest =>
      if c = 'n' then (expectLit ['u', 'l', 'l'] rest).map fun r => (Json.null, r)
      else if c = 't' then (expectLit ['r', 'u', 'e'] rest).map fun r => (Json.bool true, r)
      else if c = 'f' then (expectLit ['a', 'l', 's', 'e'] rest).map fun r => (Json.bool false, r)
      else if c = '"' then (takeStringChars rest).map fun p => (Json.str (String.mk p.1), p.2)
      else if c = '[' then
        match skipWs rest with
        | ']' :: r2 => some (Json.arr [], r2)
        | _ => (parseItems fuel rest).map fun p => (Json.arr p.1, p.2)
      else if c = '\x7b' then
        match skipWs rest with
        | '\x7d' :: r2 => some (Json.obj [], r2)
        | _ => (parseMembers fuel rest).map fun p => (Json.obj p.1, p.2)
      else (parseNumber (c :: rest)).map fun p => (Json.num p.1, p.2)

/-- Comma-separated array elements up to the closing bracket. -/
def parseItems : Nat → List Char → Option (List Json × List Char)
  | 0, _ => none
  | fuel + 1, cs =>
    match parseValue fuel cs with
    | none => none
    | some (v, rest) =>
      match skipWs rest with
      | ',' :: r2 => (parseItems fuel r2).map fun p => (v :: p.1, p.2)
      | ']' :: r2 => some ([v], r2)
      | _ => none

/-- Comma-separated object members up to the closing brace. -/
def parseMembers : Nat → List Char → Option (List (String × Json) × List Char)
  | 0, _ => none
  | fuel + 1, cs =>
    match skipWs cs with
    | '"' :: rest =>
      match takeStringChars rest with
      | none => none
      | some (key, r1) =>
        match skipWs r1 with
        | ':' :: r2 =>
          match parseValue fuel r2 with
          | none => none
          | some (v, r3) =>
            match skipWs r3 with
            | ',' :: r4 => (parseMembers fuel r4).map fun p => ((String.mk key, v) :: p.1, p.2)
            | '\x7d' :: r4 => some ([(String.mk key, v)], r4)
            | _ => none
        | _ => none
    | _ => none

end

/-- `json.loads` on a whole string: one value, then only trailing whitespace. -/
def jsonLoads (s : String) : Option Json :=
  match parseValue (s.data.length + 1) s.data with
  | some (v, rest) => if (skipWs rest).isEmpty then some v else none
  | none => none

/-- Drop characters until the first one satisfying `p` (that character kept). -/
def dropUntil (p : Char → Bool) : List Char → List Char
  | [] => []
  | c :: cs => if p c then c :: cs else dropUntil p cs

/-- Python truthiness of `content.strip()` being empty: every character is
whitespace. Models the guard on src/app.py line 74 and src/app1.py line 79. -/
def pyBlank (s : String) : Bool := s.data.all Char.isWhitespace

/-- Models `re.search(r"\[.*\]", content, re.DOTALL)` followed by `.group(0)`
(src/app.py lines 79-81): the leftmost-greedy match runs from the first
opening bracket to the last closing bracket at or after it; no match when no
such pair exists. -/
def reSearchBracket (content : String) : Option String :=
  let afterFirst := dropUntil (fun c => decide (c = '[')) content.data
  let upToLast := (dropUntil (fun c => decide (c = ']')) afterFirst.reverse).reverse
  if upToLast.isEmpty then none else some (String.mk upToLast)

/-- `detect_toc` of src/app.py (lines 58-88), from the LLM response content
onward. Returns the list of `st.error` messages displayed together with the
Python return value; every error branch returns the empty list `[]`, modelled
as `Json.arr []`. -/
def detect_toc (content : String) : List String × Json :=
  if pyBlank content then
    (["Error: Empty response from LLM while detecting TOC."], Json.arr [])
  else
    match reSearchBracket content with
    | some extracted =>
      match jsonLoads extracted with
      | some v => ([], v)
      | none => (["Error: Invalid JSON response from LLM while detecting TOC."], Json.arr [])
    | none => (["Error: No valid JSON found in response."], Json.arr [])

/-- The tail `\}\s*\]` of the src/app1.py pattern, attempted at the current
position: a closing brace, a maximal whitespace run, then a closing bracket.
Returns the matched characters and the remainder. -/
def closeTail (cs : List Char) : Option (List Char × List Char) :=
  match cs with
  | '\x7d' :: rest =>
    let ws := rest.takeWhile Char.isWhitespace
    match rest.dropWhile Char.isWhitespace with
    | ']' :: r2 => some ('\x7d' :: (ws ++ [']']), r2)
    | _ => none
  | _ => none

/-- The lazy `.*?\}\s*\]` part: extend the body one character at a time,
taking the earliest position where the closing tail matches. -/
def lazyToClose : List Char → Option (List Char)
  | [] => none
  | c :: cs =>
    match closeTail (c :: cs) with
    | some (cp, _) => some cp
    | none => (lazyToClose cs).map fun tail => c :: tail

/-- One anchored attempt of `\[\s*\{.*?\}\s*\]` (src/app1.py line 82):
opening bracket, whitespace run, opening brace, then the lazy body and
closing tail. Returns the full matched substring. -/
def tryMatchObjArray (cs : List Char) : Option (List Char) :=
  match cs with
  | '[' :: rest =>
    let ws1 := rest.takeWhile Char.isWhitespace
    match rest.dropWhile Char.isWhitespace with
    | '\x7b' :: rest2 => (lazyToClose rest2).map fun tail => '[' :: (ws1 ++ '\x7b' :: tail)
    | _ => none
  | _ => none

/-- Leftmost search for `\[\s*\{.*?\}\s*\]`: try the anchored match at each
start position in order, as `re.search` does. -/
def scanObjArray : List Char → Option (List Char)
  | [] => none
  | c :: cs =>
    match tryMatchObjArray (c :: cs) with
    | some m => some m
    | none => scanObjArray cs

/-- `re.search(r"\[\s*\{.*?\}\s*\]", content, re.DOTALL)` with `.group(0)`,
as src/app1.py lines 82-86 use it. -/
def reSearchObjArray (content : String) : Option String :=
  (scanObjArray content.data).map String.mk

/-- `detect_toc` of src/app1.py (lines 58-92), from the LLM response content
onward. This variant raises `ValueError` (modelled as `Except.error` carrying
the message) instead of returning a default. -/
def detect_toc1 (content : String) : Except String Json :=
  if pyBlank content then Except.error "Groq returned an empty response"
  else
    match reSearchObjArray content with
    | none => Except.error ("Invalid JSON from Groq: " ++ content)
    | some extracted =>
      match jsonLoads extracted with
      | some v => Except.ok v
      | none => Except.error ("Failed to parse extracted JSON: " ++ extracted)

/-- A PyMuPDF text span as `extract_chapter` consumes it: its font size, its
text, and whether the dict carries a `color` or `bold` key (the style markers
the membership tests `"color" in span` and `"bold" in span` look for,
src/app.py line 129). -/
structure Span where
  size : Int
  text : String
  hasColor : Bool
  hasBold : Bool
deriving DecidableEq, Repr

/-- A line is its list of spans (`line["spans"]`). -/
abbrev Line := List Span

/-- A block, which carries a `lines` key only when it is a text block
(`if "lines" in block`, src/app.py line 107). -/
structure Block where
  lines : Option (List Line)
deriving DecidableEq, Repr

/-- A page as `page.get_text("dict")["blocks"]` returns it. -/
abbrev PageDict := List Block

/-- A document for the span-level extractor: its pages in physical order. -/
abbrev Doc := List PageDict

/-- The spans of one block, in line order; blocks without a `lines` key
contribute nothing (src/app.py lines 106-109). -/
def blockSpans (b : Block) : List Span :=
  match b.lines with
  | some ls => ls.flatMap fun l => l
  | none => []

/-- The spans of one page, in block/line/span order. -/
def pageSpans (p : PageDict) : List Span := p.flatMap blockSpans

/-- The page-filtering loop of `extract_chapter` (src/app.py lines 103-104 and
122-123): keep each page whose 1-indexed position is in range, zero-based
counter as in `enumerate`. -/
def pagesSelected (startPage endPage : Int) : Int → Doc → List PageDict
  | _, [] => []
  | i, p :: rest =>
    if startPage ≤ i + 1 ∧ i + 1 ≤ endPage then p :: pagesSelected startPage endPage (i + 1) rest
    else pagesSelected startPage endPage (i + 1) rest

/-- Every span visited by either pass of `extract_chapter`, in document
(page, block, line, span) order. -/
def spansInRange (doc : Doc) (startPage endPage : Int) : List Span :=
  (pagesSelected startPage endPage 0 doc).flatMap pageSpans

/-- Pass 1 of `extract_chapter` (src/app.py lines 103-110): the font-size
histogram `size -> word count` accumulated over every span in range. -/
def font_sizes_of (doc : Doc) (startPage endPage : Int) : List (Int × Nat) :=
  (spansInRange doc startPage endPage).foldl
    (fun h sp => addWords h sp.size (countWords sp.text)) []

/-- Pass 2 of `extract_chapter` (src/app.py lines 122-130): emit the text of
every span whose size is in the selected list, or which carries a `color` or
`bold` key, in document order. -/
def collect_headings (doc : Doc) (startPage endPage : Int) (selected : List Int) : List String :=
  ((spansInRange doc startPage endPage).filter fun sp =>
    selected.contains sp.size || sp.hasColor || sp.hasBold).map fun sp => sp.text

/-- `extract_chapter` (src/app.py lines 90-132) end to end: resolve the page
offset from the stored anchor (a `None` anchor crashes, modelled as `none`),
build the font histogram over the adjusted range, select sizes greedily under
the 2000-word budget, then collect the qualifying span texts newline-joined. -/
def extract_chapter (db : List Row) (doc : Doc) (start_page end_page first_chapter_first_page : Int) :
    Option String :=
  (resolve_pages db start_page end_page first_chapter_first_page).map fun pq =>
    let selected := (selectedSizesOf (font_sizes_of doc pq.1 pq.2)).1
    let headings := collect_headings doc pq.1 pq.2 selected
    if headings.isEmpty then "" else String.intercalate "\n" headings

/-! Theorems. -/

/-- C1: counterexample to the claimed accept-then-check-after boundary policy.
On the histogram size 20 -> 500 words, size 14 -> 1800 words, size 10 -> 5000
words with the fixed 2000-word budget, the selection loop of
`extract_chapter` does NOT accept size 14, and the accumulated total is not
2300. -/
theorem c1_selection_counterexample :
    14 ∉ (selectedSizesOf [(20, 500), (14, 1800), (10, 5000)]).1 ∧
    (selectedSizesOf [(20, 500), (14, 1800), (10, 5000)]).2 ≠ 2300 := by decide

/-- C1 (amended): the greedy descending-size loop tests
`total_words + words <= max_words` BEFORE accepting a size, so on the
histogram size 20 -> 500, size 14 -> 1800, size 10 -> 5000 with the 2000-word
budget, size 14 (which would bring the total to 2300) is rejected and the loop
stops: the selected set is just size 20 and the accumulated total is 500
words, within the budget (check-before-accept boundary policy). -/
theorem c1_selection_checks_budget_first :
    selectedSizesOf [(20, 500), (14, 1800), (10, 5000)] = ([20], 500) := by decide

/-- C2: counterexample. With an empty chapter store, page-offset resolution in
`extract_chapter` does not fail at all: `get_first_chapter_start_page`
substitutes the guessed anchor 1, and resolving stored pages 5..9 with a
declared first-chapter page 10 succeeds with physical pages 14..18. -/
theorem c2_missing_anchor_counterexample :
    resolve_pages [] 5 9 10 = some (14, 18) := rfl

/-- C2 (amended): when the store holds no chapters, the anchor defaults to the
guessed value 1 and resolution succeeds, shifting both bounds by the declared
page minus 1; when the first stored record's start page loads as absent, the
resolution expression crashes with an unhandled `TypeError` (modelled as
`none`). No `CalibrationError` is raised in either case. -/
theorem c2_missing_anchor_behavior : ∀ (s e f : Int),
    resolve_pages [] s e f = some (s + (f - 1), e + (f - 1)) ∧
    ∀ (n t : String) (oe : Option Int) (db : List Row),
      resolve_pages ({ chapter_number := n, title := t, start_page := none, end_page := oe } :: db)
        s e f = none := by
  intro s e f
  constructor
  · simp [resolve_pages, get_first_chapter_start_page, get_chapters_from_db, resolve]
  · intro n t oe db
    simp [resolve_pages, get_first_chapter_start_page, get_chapters_from_db, pyIntOrNone]

/-- C3: counterexample. On the empty LLM response, `detect_toc` of src/app.py
does not raise: it displays an error message and returns the default empty
list. -/
theorem c3_empty_counterexample :
    detect_toc "" = (["Error: Empty response from LLM while detecting TOC."], Json.arr []) := rfl

/-- C3 (amended): on an empty or whitespace-only LLM response, `detect_toc` of
src/app.py reports an empty-response error message and returns a default empty
list to its caller, while `detect_toc` of src/app1.py raises
`ValueError("Groq returned an empty response")`; only the latter signals the
failure to the caller. -/
theorem c3_empty_behavior : ∀ (content : String), pyBlank content = true →
    detect_toc content = (["Error: Empty response from LLM while detecting TOC."], Json.arr []) ∧
    detect_toc1 content = Except.error "Groq returned an empty response" := by
  intro content h
  constructor
  · simp [detect_toc, h]
  · simp [detect_toc1, h]

/-- C3 witness: the amended behaviour at the concrete whitespace response. -/
theorem c3_empty_behavior_witness :
    detect_toc "  \n " = (["Error: Empty response from LLM while detecting TOC."], Json.arr []) ∧
    detect_toc1 "  \n " = Except.error "Groq returned an empty response" :=
  c3_empty_behavior "  \n " (by decide)

/-- C4: counterexample. On a response whose extracted bracket substring is not
valid JSON, `detect_toc` of src/app.py does not raise an error carrying the
extracted text: it displays a message and returns the default empty list. -/
theorem c4_malformed_counterexample :
    detect_toc "x[\x7bbad\x7d]y" =
      (["Error: Invalid JSON response from LLM while detecting TOC."], Json.arr []) := rfl

/-- C4 (amended): when the extracted bracket-delimited substring is not valid
JSON, `detect_toc` of src/app.py reports an invalid-JSON error message and
returns a default empty list (no partial recovery, but also no raised error),
while `detect_toc` of src/app1.py raises `ValueError` carrying the raw
extracted text. -/
theorem c4_malformed_behavior : ∀ (content x y : String),
    pyBlank content = false →
    reSearchBracket content = some x → jsonLoads x = none →
    reSearchObjArray content = some y → jsonLoads y = none →
    detect_toc content =
      (["Error: Invalid JSON response from LLM while detecting TOC."], Json.arr []) ∧
    detect_toc1 content = Except.error ("Failed to parse extracted JSON: " ++ y) := by
  intro content x y hb h1 h2 h3 h4
  constructor
  · simp [detect_toc, hb, h1, h2]
  · simp [detect_toc1, hb, h3, h4]

/-- C4 witness: the amended behaviour at a concrete malformed response. -/
theorem c4_malformed_behavior_witness :
    detect_toc "x[\x7bbad\x7d]y" =
      (["Error: Invalid JSON response from LLM while detecting TOC."], Json.arr []) ∧
    detect_toc1 "x[\x7bbad\x7d]y" =
      Except.error ("Failed to parse extracted JSON: " ++ "[\x7bbad\x7d]") :=
  c4_malformed_behavior "x[\x7bbad\x7d]y" "[\x7bbad\x7d]" "[\x7bbad\x7d]"
    (by decide) (by rfl) (by rfl) (by rfl) (by rfl)

/-- C5: offset resolution returns both bounds shifted by the declared anchor
page minus the stored anchor page, and shifting the result back by the
inverse offset recovers the stored bounds (round-trip identity). -/
theorem c5_offset_roundtrip : ∀ (s e d f : Int), e ≥ s →
    resolve s e f d = (s + (f - d), e + (f - d)) ∧
    (resolve s e f d).1 + (d - f) = s ∧
    (resolve s e f d).2 + (d - f) = e ∧
    (resolve s e f d).2 ≥ (resolve s e f d).1 := by
  intro s e d f h
  refine ⟨rfl, ?_, ?_, ?_⟩ <;> simp [resolve] <;> omega

/-- C5 witness: the round-trip identity at stored pages 3..7, declared anchor
page 12, stored anchor page 4. -/
theorem c5_offset_roundtrip_witness :
    resolve 3 7 12 4 = (3 + (12 - 4), 7 + (12 - 4)) ∧
    (resolve 3 7 12 4).1 + (4 - 12) = 3 ∧
    (resolve 3 7 12 4).2 + (4 - 12) = 7 ∧
    (resolve 3 7 12 4).2 ≥ (resolve 3 7 12 4).1 :=
  c5_offset_roundtrip 3 7 4 12 (by decide)

/-- Round trip through the store: a list of chapters whose page bounds are all
present and nonzero is saved and loaded back unchanged, in insertion order. -/
theorem get_save_of_bounds : ∀ (L : List Chapter) (db : List Row),
    (∀ ch ∈ L, ∃ s t : Int, ch.start_page = some s ∧ ch.end_page = some t ∧ s ≠ 0 ∧ t ≠ 0) →
    get_chapters_from_db (save_chapters_to_db L db) = L := by
  intro L db
  induction L with
  | nil => intro _; rfl
  | cons ch tl ih =>
    intro h
    obtain ⟨s, t, hs, ht, hs0, ht0⟩ := h ch (List.mem_cons_self _ _)
    have htl := ih fun c hc => h c (List.mem_cons_of_mem _ hc)
    obtain ⟨n, ti, sp, ep⟩ := ch
    simp only at hs ht
    subst hs; subst ht
    simp only [save_chapters_to_db, get_chapters_from_db, List.filterMap_cons, List.map_cons,
      pyIntOrNone, hs0, ht0, if_false] at htl ⊢
    simpa using htl

/-- C6: counterexample. Replacing the stored records with the single record C
whose start page is absent does not leave the store containing exactly C: the
insertion filter of `save_chapters_to_db` drops it and the store ends up
empty. -/
theorem c6_replace_counterexample :
    get_chapters_from_db (save_chapters_to_db
      [{ chapter_number := "3", title := "C", start_page := none, end_page := some 5 }]
      (save_chapters_to_db
        [{ chapter_number := "1", title := "A", start_page := some 1, end_page := some 2 },
         { chapter_number := "2", title := "B", start_page := some 3, end_page := some 4 }] []))
    ≠ [{ chapter_number := "3", title := "C", start_page := none, end_page := some 5 }] := by
  decide

/-- C6 (amended): each `replace_all` clears all previously stored records
before inserting the new set and `load_all` returns the records in insertion
order, so after `replace_all` of one list and then `replace_all` of a second
list the store contains exactly the second list — provided every record of
the second list has both page bounds present and nonzero (a record with a
missing bound is dropped at insertion, and a stored 0 loads back as absent). -/
theorem c6_replace_semantics : ∀ (L1 L2 : List Chapter) (db : List Row),
    (∀ ch ∈ L2, ∃ s t : Int, ch.start_page = some s ∧ ch.end_page = some t ∧ s ≠ 0 ∧ t ≠ 0) →
    get_chapters_from_db (save_chapters_to_db L2 (save_chapters_to_db L1 db)) = L2 := by
  intro L1 L2 db h
  exact get_save_of_bounds L2 (save_chapters_to_db L1 db) h

/-- C6 witness: the amended replace semantics at concrete record lists. -/
theorem c6_replace_semantics_witness :
    get_chapters_from_db (save_chapters_to_db
      [{ chapter_number := "2", title := "Basics", start_page := some 11, end_page := some 20 }]
      (save_chapters_to_db
        [{ chapter_number := "1", title := "Intro", start_page := some 1, end_page := some 10 },
         { chapter_number := "1b", title := "More", start_page := some 2, end_page := some 3 }] []))
    = [{ chapter_number := "2", title := "Basics", start_page := some 11, end_page := some 20 }] := by
  apply c6_replace_semantics
  intro ch hch
  simp only [List.mem_singleton] at hch
  subst hch
  exact ⟨11, 20, rfl, rfl, by decide, by decide⟩

/-- C10: `save_chapters_to_db` silently drops, at insertion time, every record
with an absent `start_page` or `end_page`: every stored row has both bounds
present, and a record list in which every record misses a bound leaves the
store empty. -/
theorem c10_store_drops_null_pages : ∀ (chapters : List Chapter) (db : List Row),
    (∀ r ∈ save_chapters_to_db chapters db, r.start_page.isSome ∧ r.end_page.isSome) ∧
    ((∀ ch ∈ chapters, ch.start_page = none ∨ ch.end_page = none) →
      save_chapters_to_db chapters db = []) := by
  intro chapters db
  constructor
  · intro r hr
    simp only [save_chapters_to_db, List.mem_filterMap] at hr
    obtain ⟨ch, _, hch⟩ := hr
    rcases hsp : ch.start_page with _ | s <;> rcases hep : ch.end_page with _ | t <;>
      simp [hsp, hep] at hch
    rw [← hch]
    exact ⟨rfl, rfl⟩
  · intro h
    simp only [save_chapters_to_db]
    rw [List.filterMap_eq_nil_iff]
    intro ch hch
    rcases hsp : ch.start_page with _ | s <;> rcases hep : ch.end_page with _ | t <;>
      simp [hsp, hep]
    rcases h ch hch with h1 | h1
    · rw [hsp] at h1; exact absurd h1 (by simp)
    · rw [hep] at h1; exact absurd h1 (by simp)

/-- C10 witness: the store invariant at a concrete run whose only record
misses its start page. -/
theorem c10_store_drops_null_pages_witness :
    save_chapters_to_db
      [{ chapter_number := "1", title := "A", start_page := none, end_page := some 2 }] [] = [] := by
  apply (c10_store_drops_null_pages _ _).2
  intro ch hch
  simp only [List.mem_singleton] at hch
  subst hch
  exact Or.inl rfl

/-- C8: in the collection pass of `extract_chapter`, a span in the page range
is emitted whenever its font size is in the selected list OR it carries a bold
or colour style marker — the style marker is an independent OR-ed inclusion
criterion, so in particular a bold span whose size is below the cutoff still
appears in the output. -/
theorem c8_style_override : ∀ (doc : Doc) (s e : Int) (selected : List Int) (sp : Span),
    sp ∈ spansInRange doc s e →
    (sp.size ∈ selected ∨ sp.hasBold = true ∨ sp.hasColor = true) →
    sp.text ∈ collect_headings doc s e selected := by
  intro doc s e selected sp hmem hcond
  unfold collect_headings
  apply List.mem_map_of_mem
  rw [List.mem_filter]
  refine ⟨hmem, ?_⟩
  rcases hcond with h | h | h
  · simp [List.contains, List.elem_eq_mem, h]
  · simp [h]
  · simp [h]

/-- C8 witness: a bold span of size 5, below the selected cutoff of size 20,
still appears in the collection-pass output. -/
theorem c8_style_override_witness :
    "Bold heading" ∈ collect_headings
      [[{ lines := some [[{ size := 5, text := "Bold heading", hasColor := false, hasBold := true }]] }]]
      1 1 [20] :=
  c8_style_override _ 1 1 [20]
    { size := 5, text := "Bold heading", hasColor := false, hasBold := true }
    (by decide) (Or.inr (Or.inl rfl))

/-- The implementation's zero-based page loop agrees with the spec-side
1-indexed page selection, shifted by one. -/
theorem collectPages_eq_spec (s e : Int) : ∀ (i : Int) (pages : List String),
    collectPages s e i pages = pagesInRangeSpec s e (i + 1) pages := by
  intro i pages
  induction pages generalizing i with
  | nil => rfl
  | cons t rest ih =>
    simp only [collectPages, pagesInRangeSpec, ih]

/-- No page position at or after `p` can satisfy the bounds: the selection is
empty. -/
theorem pagesInRangeSpec_nil_of (s e : Int) : ∀ (p : Int) (pages : List String),
    (∀ pos : Int, p ≤ pos → ¬(s ≤ pos ∧ pos ≤ e)) →
    pagesInRangeSpec s e p pages = [] := by
  intro p pages
  induction pages generalizing p with
  | nil => intro _; rfl
  | cons t rest ih =>
    intro h
    have hc : ¬(s ≤ p ∧ p ≤ e) := h p le_rfl
    simp only [pagesInRangeSpec, if_neg hc]
    exact ih (p + 1) fun pos hpos => h pos (by omega)

/-- When the start bound exceeds the last page position, the selection is
empty. -/
theorem pagesInRangeSpec_nil_of_high (s e : Int) : ∀ (p : Int) (pages : List String),
    p + (pages.length : Int) ≤ s →
    pagesInRangeSpec s e p pages = [] := by
  intro p pages
  induction pages generalizing p with
  | nil => intro _; rfl
  | cons t rest ih =>
    intro h
    simp only [List.length_cons] at h
    have hc : ¬(s ≤ p ∧ p ≤ e) := by push_cast at h; omega
    simp only [pagesInRangeSpec, if_neg hc]
    exact ih (p + 1) (by push_cast at h ⊢; omega)

/-- C9: `extract_text_from_pdf` returns the plain texts of exactly the pages
whose 1-indexed position lies in the inclusive range, joined by newlines in
physical page order; and when the range matches no pages — in particular when
the start bound exceeds the end bound, when the end bound is below the first
page, or when the start bound is past the last page — it returns the empty
string rather than failing. -/
theorem c9_extract_text_range : ∀ (pages : List String) (s e : Int),
    extract_text_from_pdf pages s e = String.intercalate "\n" (pagesInRangeSpec s e 1 pages) ∧
    (s > e → extract_text_from_pdf pages s e = "") ∧
    (e < 1 → extract_text_from_pdf pages s e = "") ∧
    ((pages.length : Int) < s → extract_text_from_pdf pages s e = "") := by
  intro pages s e
  have hrw : collectPages s e 0 pages = pagesInRangeSpec s e 1 pages := by
    have := collectPages_eq_spec s e 0 pages
    simpa using this
  have hmain : extract_text_from_pdf pages s e =
      String.intercalate "\n" (pagesInRangeSpec s e 1 pages) := by
    unfold extract_text_from_pdf
    rw [hrw]
    rcases hsel : pagesInRangeSpec s e 1 pages with _ | ⟨t, rest⟩
    · rfl
    · rfl
  refine ⟨hmain, ?_, ?_, ?_⟩
  · intro h
    rw [hmain, pagesInRangeSpec_nil_of s e 1 pages fun pos _ => by omega]
    rfl
  · intro h
    rw [hmain, pagesInRangeSpec_nil_of s e 1 pages fun pos hpos => by omega]
    rfl
  · intro h
    rw [hmain, pagesInRangeSpec_nil_of_high s e 1 pages (by omega)]
    rfl

/-- C9 witness: the range behaviour at a concrete three-page document, for an
in-bounds range and for an inverted range. -/
theorem c9_extract_text_range_witness :
    extract_text_from_pdf ["pg one", "pg two", "pg three"] 2 3 =
      String.intercalate "\n" (pagesInRangeSpec 2 3 1 ["pg one", "pg two", "pg three"]) ∧
    extract_text_from_pdf ["pg one", "pg two", "pg three"] 3 2 = "" :=
  ⟨(c9_extract_text_range ["pg one", "pg two", "pg three"] 2 3).1,
   (c9_extract_text_range ["pg one", "pg two", "pg three"] 3 2).2.1 (by decide)⟩

/-- Rebuilding a string from its character data is the identity. -/
theorem mk_data (s : String) : String.mk s.data = s := by cases s; rfl

/-- `dropUntil` skips over a block in which no character satisfies the
predicate. -/
theorem dropUntil_append_of_none (p : Char → Bool) (l1 l2 : List Char)
    (h : ∀ c ∈ l1, p c = false) : dropUntil p (l1 ++ l2) = dropUntil p l2 := by
  induction l1 with
  | nil => rfl
  | cons c cs ih =>
    simp only [List.cons_append, dropUntil, h c (by simp)]
    exact ih fun d hd => h d (by simp [hd])

/-- `dropUntil` stops at a character satisfying the predicate. -/
theorem dropUntil_cons_pos (p : Char → Bool) (c : Char) (cs : List Char) (h : p c = true) :
    dropUntil p (c :: cs) = c :: cs := by simp [dropUntil, h]

/-- C7: counterexample to the claim over both pipelines. On the response
consisting of a syntactically valid JSON empty array wrapped in bracket-free
prose, `detect_toc` of src/app.py extracts and returns the embedded array,
but `detect_toc` of src/app1.py — whose pattern is the lazy object-anchored
one, not the claimed greedy bracket pattern — finds no match and raises
`ValueError` instead of returning the embedded records. -/
theorem c7_lazy_pattern_counterexample :
    detect_toc "Sure:\n[]\nDone" = ([], Json.arr []) ∧
    detect_toc1 "Sure:\n[]\nDone" =
      Except.error ("Invalid JSON from Groq: " ++ "Sure:\n[]\nDone") :=
  ⟨rfl, rfl⟩

/-- C7 (amended): `detect_toc` of src/app.py locates the payload as the first
substring matching the greedy, newline-spanning bracket pattern, so for any
LLM response made of a valid JSON array wrapped in prose, where neither the
wrapper nor the array interior contains further bracket characters, it
returns exactly the parsed records of the embedded array, with no error
reported, ignoring the wrapper. (`detect_toc` of src/app1.py anchors on the
lazy object pattern instead and does not share this property; see the
counterexample.) -/
theorem c7_toc_roundtrip : ∀ (pre mid post : String) (v : Json),
    (∀ c ∈ pre.data, c ≠ '[' ∧ c ≠ ']') →
    (∀ c ∈ mid.data, c ≠ '[' ∧ c ≠ ']') →
    (∀ c ∈ post.data, c ≠ '[' ∧ c ≠ ']') →
    jsonLoads ("[" ++ mid ++ "]") = some v →
    detect_toc (pre ++ "[" ++ mid ++ "]" ++ post) = ([], v) := by
  intro pre mid post v hpre hmid hpost hjson
  have hb1 : ("[" : String).data = ['['] := rfl
  have hb2 : ("]" : String).data = [']'] := rfl
  have hdata : (pre ++ "[" ++ mid ++ "]" ++ post).data
      = pre.data ++ ('[' :: (mid.data ++ (']' :: post.data))) := by
    simp [String.data_append, hb1, hb2]
  have h1 : dropUntil (fun c => decide (c = '[')) (pre ++ "[" ++ mid ++ "]" ++ post).data
      = '[' :: (mid.data ++ (']' :: post.data)) := by
    rw [hdata, dropUntil_append_of_none _ _ _ fun c hc => decide_eq_false (hpre c hc).1,
      dropUntil_cons_pos _ _ _ (by decide)]
  have hrev : ('[' :: (mid.data ++ (']' :: post.data))).reverse
      = post.data.reverse ++ (']' :: (mid.data.reverse ++ ['['])) := by
    simp
  have h2 : dropUntil (fun c => decide (c = ']')) ('[' :: (mid.data ++ (']' :: post.data))).reverse
      = ']' :: (mid.data.reverse ++ ['[']) := by
    rw [hrev,
      dropUntil_append_of_none _ _ _
        (fun c hc => decide_eq_false (hpost c (List.mem_reverse.mp hc)).2),
      dropUntil_cons_pos _ _ _ (by decide)]
  have h3 : (']' :: (mid.data.reverse ++ ['['])).reverse = '[' :: (mid.data ++ [']']) := by
    simp
  have h5 : String.mk ('[' :: (mid.data ++ [']'])) = "[" ++ mid ++ "]" := by
    have hd : ("[" ++ mid ++ "]").data = '[' :: (mid.data ++ [']']) := by
      simp [String.data_append, hb1, hb2]
    rw [← hd, mk_data]
  have h4 : reSearchBracket (pre ++ "[" ++ mid ++ "]" ++ post) = some ("[" ++ mid ++ "]") := by
    simp only [reSearchBracket]
    rw [h1, h2, h3, h5]
    rfl
  have hblank : pyBlank (pre ++ "[" ++ mid ++ "]" ++ post) = false := by
    have hws : ('[' : Char).isWhitespace = false := by decide
    simp only [pyBlank, hdata, List.all_append, List.all_cons, hws, Bool.false_and,
      Bool.and_false]
  simp [detect_toc, hblank, h4, hjson]

/-- C7 witness: a markdown-fenced response whose embedded one-record array is
extracted and parsed, the prose wrapper ignored. -/
theorem c7_toc_roundtrip_witness :
    detect_toc ("Here is the TOC:\n```json\n" ++ "["
        ++ "\x7b\"chapter_number\": \"1\", \"title\": \"Intro\", \"start_page\": 1, \"end_page\": 10\x7d"
        ++ "]" ++ "\n```\nDone.") =
      ([], Json.arr [Json.obj [("chapter_number", Json.str "1"), ("title", Json.str "Intro"),
        ("start_page", Json.num 1), ("end_page", Json.num 10)]]) :=
  c7_toc_roundtrip "Here is the TOC:\n```json\n"
    "\x7b\"chapter_number\": \"1\", \"title\": \"Intro\", \"start_page\": 1, \"end_page\": 10\x7d"
    "\n```\nDone." _ (by decide) (by decide) (by decide) (by rfl)

end App
